import Mathlib

/-!
Verification of the WINS ticket-queue engine
(`backend/services/Services.py`) against its specification.

The durable store is the single `tickets` table created by `init_db`:
columns `id` (primary key, fed by the sequence `seq_personid` starting
at 1), `ticket_number`, `timestamp`, `attended` (default FALSE).
We embed a database state as the sequence counter plus the list of rows
in insertion order, timestamps as natural numbers (microsecond ticks);
`datetime.now()` values are passed in as explicit parameters.
-/

/-- A row of the `tickets` table. -/
structure Ticket where
  id : Nat
  ticket_number : Nat
  timestamp : Nat
  attended : Bool
deriving DecidableEq, Repr

/-- The database state: the next value of `seq_personid` (starts at 1)
and the rows of `tickets` in insertion order. -/
structure DB where
  seq : Nat
  tickets : List Ticket
deriving DecidableEq, Repr

/-- The state right after `init_db` on a fresh file: empty table,
sequence at 1. -/
def emptyDB : DB := ⟨1, []⟩

/-- Rows satisfying `attended = FALSE`, in table order. -/
def waitingTickets (db : DB) : List Ticket :=
  db.tickets.filter (fun t => !t.attended)

/-- The query `SELECT COUNT(*) FROM tickets WHERE attended = FALSE`. -/
def waitingCount (db : DB) : Nat := (waitingTickets db).length

/-- The query `SELECT COUNT(*) FROM tickets`. -/
def totalIssued (db : DB) : Nat := db.tickets.length

/-- The expression `result if result is not None else 0` applied to
`SELECT MAX(ticket_number) FROM tickets` (SQL MAX over an empty table is
NULL, mapped to 0 by the Python code). -/
def lastTicketNumber (db : DB) : Nat :=
  ((db.tickets.map (fun t => t.ticket_number)).max?).getD 0

/-- Payload returned by a successful `create_ticket` (the inserted row is
reported back with `attended = False`). -/
structure TicketPayload where
  ticket_number : Nat
  timestamp : Nat
  attended : Bool
deriving DecidableEq, Repr

/-- The committed effect of `create_ticket`'s INSERT: a fresh row with
`id = nextval('seq_personid')`, `ticket_number = last + 1`,
the current time, and `attended = FALSE`, appended to the table. -/
def create_ticket (db : DB) (now : Nat) : DB × TicketPayload :=
  let newNumber := lastTicketNumber db + 1
  (⟨db.seq + 1, db.tickets ++ [⟨db.seq, newNumber, now, false⟩]⟩,
   ⟨newNumber, now, false⟩)

/-- Full control flow of `create_ticket`, print side effect included.
`printerInitOk` is whether `ThermalPrinter()` (constructed at the top of
the `try` block, before any query) returns without raising; `printOk` is
whether `printer.print(...)` (invoked after `conn.commit()`, still inside
the `try` block) returns without raising.  Any exception lands in the
`except` branch, which returns `None`; the `rollback` attempted there has
no effect on an already committed INSERT. -/
def create_ticket_run (db : DB) (now : Nat) (printerInitOk printOk : Bool) :
    DB × Option TicketPayload :=
  if printerInitOk then
    let r := create_ticket db now
    if printOk then (r.1, some r.2) else (r.1, none)
  else (db, none)

/-- The query in `call_next_ticket`:
`SELECT id, ticket_number, timestamp FROM tickets WHERE attended = FALSE
ORDER BY timestamp ASC LIMIT 1`.  SQL leaves the order of rows with equal
`timestamp` unspecified, so any waiting row whose timestamp is minimal
among the waiting rows may be the one fetched; `canSelect db t` says `t`
is such a permissible result. -/
def canSelect (db : DB) (t : Ticket) : Bool :=
  decide (t ∈ waitingTickets db) &&
    (waitingTickets db).all (fun u => decide (t.timestamp ≤ u.timestamp))

/-- Predicate from the specification's ordering sentence: `t` is the
waiting ticket with the smallest `(timestamp, id)` pair, every other
waiting ticket being strictly later in that lexicographic order. -/
def isTsIdMin (db : DB) (t : Ticket) : Bool :=
  decide (t ∈ waitingTickets db) &&
    (waitingTickets db).all (fun u =>
      decide (u = t) || decide (t.timestamp < u.timestamp) ||
        (decide (t.timestamp = u.timestamp) && decide (t.id < u.id)))

/-- The statement `UPDATE tickets SET attended = TRUE WHERE id = ?`. -/
def markAttended (db : DB) (i : Nat) : DB :=
  ⟨db.seq, db.tickets.map (fun t =>
    if t.id = i then ⟨t.id, t.ticket_number, t.timestamp, true⟩ else t)⟩

/-- Payload returned by a successful `call_next_ticket`:
`called_ticket` is the fetched row's number, `called_time` is
`datetime.now().isoformat()` (a fresh clock reading), and
`wait_time_seconds` is `(datetime.now() - timestamp).total_seconds()`
(a second clock reading minus the row's stored timestamp). -/
structure CallPayload where
  called_ticket : Nat
  called_time : Nat
  wait_time_seconds : Int
deriving DecidableEq, Repr

/-- One execution of `call_next_ticket`.  `now1` is the clock reading
used for `called_time`, `now2` the (later) reading used for
`wait_time_seconds`.  When no waiting row exists, `fetchone` returns
`None` and the function returns `None` without touching the table;
otherwise some permissible row `t` is fetched, its `attended` flag is
set by id, and the payload is built from `t`. -/
inductive CallNextStep (db : DB) (now1 now2 : Nat) :
    DB × Option CallPayload → Prop
  | empty : waitingTickets db = [] → CallNextStep db now1 now2 (db, none)
  | select (t : Ticket) : canSelect db t = true →
      CallNextStep db now1 now2
        (markAttended db t.id,
         some ⟨t.ticket_number, now1, (now2 : Int) - (t.timestamp : Int)⟩)

/-- The statement `UPDATE tickets SET attended = TRUE` in `reset_queue`
(no WHERE clause). -/
def reset_queue (db : DB) : DB :=
  ⟨db.seq, db.tickets.map (fun t => ⟨t.id, t.ticket_number, t.timestamp, true⟩)⟩

/-- Number of rows matched by `reset_queue`'s UPDATE.  The statement has
no WHERE clause, so it matches every row of the table. -/
def resetRowsTouched (db : DB) : Nat := db.tickets.length

/-- Ordering relation of `ORDER BY id DESC`. -/
def idGe (a b : Ticket) : Prop := b.id ≤ a.id

instance : DecidableRel idGe :=
  fun a b => inferInstanceAs (Decidable (b.id ≤ a.id))

instance : IsTotal Ticket idGe :=
  ⟨fun a b => Nat.le_total b.id a.id⟩

instance : IsTrans Ticket idGe :=
  ⟨fun _ _ _ hab hbc => Nat.le_trans hbc hab⟩

/-- The rows of `SELECT ... FROM tickets WHERE attended = TRUE ORDER BY
id DESC` (shared by `get_currently_called` and `get_ticket_history`). -/
def attendedSorted (db : DB) : List Ticket :=
  (db.tickets.filter (fun t => t.attended)).insertionSort idGe

/-- Number of rows satisfying `attended = TRUE`. -/
def attendedCount (db : DB) : Nat :=
  (db.tickets.filter (fun t => t.attended)).length

/-- One entry of the history payload:
`(ticket_number, called_at)` where `called_at` is the row's stored
timestamp rendered by `isoformat()`. -/
def histEntry (t : Ticket) : Nat × Nat := (t.ticket_number, t.timestamp)

/-- The function `get_ticket_history(limit)`: attended rows, most recent
id first, truncated by `LIMIT ?`, each row rendered as
`(ticket_number, called_at)`. -/
def get_ticket_history (db : DB) (limit : Nat) : List (Nat × Nat) :=
  ((attendedSorted db).take limit).map histEntry

/-- A JSON value appearing in the `get_currently_called` payload. -/
inductive Val where
  | vnull
  | vnat (n : Nat)
  | vts (ts : Nat)
deriving DecidableEq, Repr

/-- The function `get_currently_called`: fetch the attended row with the
highest id; if none, the returned dict is exactly
`["currently_called" mapped to None]` (the `called_at` key is absent);
otherwise both keys are present. -/
def get_currently_called (db : DB) : List (String × Val) :=
  match (attendedSorted db).head? with
  | none => [("currently_called", Val.vnull)]
  | some t =>
      [("currently_called", Val.vnat t.ticket_number),
       ("called_at", Val.vts t.timestamp)]

/-- Payload of `get_queue_status`. -/
structure QueueStatus where
  waiting_tickets : Nat
  total_issued : Nat
  highest_ticket : Nat
deriving DecidableEq, Repr

/-- The function `get_queue_status` on a reachable store. -/
def get_queue_status (db : DB) : QueueStatus :=
  ⟨waitingCount db, totalIssued db, lastTicketNumber db⟩

/-- Outcome of the store interaction in a read-only service function.
`connectFail` is `duckdb.connect` raising inside `get_connection()`,
which each of the three functions calls before entering its `try`
block; `queryFail` is a query raising inside the `try` block (caught by
the `except` branch); `ok db` is a normal read of table state `db`. -/
inductive StoreOutcome where
  | connectFail
  | queryFail
  | ok (db : DB)
deriving DecidableEq, Repr

/-- The function `get_queue_status` with its store interaction.
`conn = get_connection()` stands before the `try` block, so a
connection failure raises out of the function to the caller
(`Except.error`); a query failure inside the `try` is caught by the
`except` branch, which returns the all-zero dict. -/
def get_queue_status_run : StoreOutcome → Except Unit QueueStatus
  | StoreOutcome.connectFail => Except.error ()
  | StoreOutcome.queryFail => Except.ok ⟨0, 0, 0⟩
  | StoreOutcome.ok db => Except.ok (get_queue_status db)

/-- The function `get_ticket_history` with its store interaction: a
connection failure (before the `try`) propagates, a query failure
inside the `try` is answered with the empty list. -/
def get_ticket_history_run : StoreOutcome → Nat → Except Unit (List (Nat × Nat))
  | StoreOutcome.connectFail, _ => Except.error ()
  | StoreOutcome.queryFail, _ => Except.ok []
  | StoreOutcome.ok db, limit => Except.ok (get_ticket_history db limit)

/-- The function `get_currently_called` with its store interaction: a
connection failure (before the `try`) propagates, a query failure
inside the `try` is answered with the single-key `None` dict. -/
def get_currently_called_run : StoreOutcome → Except Unit (List (String × Val))
  | StoreOutcome.connectFail => Except.error ()
  | StoreOutcome.queryFail => Except.ok [("currently_called", Val.vnull)]
  | StoreOutcome.ok db => Except.ok (get_currently_called db)

/-- One mutating operation of the service layer: a `create_ticket` run
(with any print outcome), a `call_next_ticket` run, or a `reset_queue`
run. -/
inductive Step : DB → DB → Prop
  | issue (db : DB) (now : Nat) (initOk printOk : Bool) :
      Step db (create_ticket_run db now initOk printOk).1
  | callNext (db : DB) (now1 now2 : Nat) (out : DB × Option CallPayload) :
      CallNextStep db now1 now2 out → Step db out.1
  | reset (db : DB) : Step db (reset_queue db)

/-- N sequential `create_ticket` calls starting from the fresh database,
the k-th call happening at time `times k`. -/
def iterateIssue (times : Nat → Nat) : Nat → DB
  | 0 => emptyDB
  | n + 1 => (create_ticket (iterateIssue times n) (times n)).1

theorem max?_getD_zero (l : List Nat) : l.max?.getD 0 = l.foldl Nat.max 0 := by
  cases l with
  | nil => rfl
  | cons x xs =>
      show xs.foldl max x = List.foldl Nat.max 0 (x :: xs)
      simp [List.foldl_cons, Nat.zero_max]

theorem foldl_max_range_one (n : Nat) :
    (List.range' 1 n).foldl Nat.max 0 = n := by
  induction n with
  | zero => rfl
  | succ m ih =>
      rw [List.range'_1_concat, List.foldl_append, ih]
      show Nat.max m (1 + m) = m + 1
      exact (Nat.max_eq_right (Nat.le_add_left m 1)).trans (Nat.add_comm 1 m)

theorem lastTicketNumber_of_range (db : DB) (n : Nat)
    (h : db.tickets.map (fun t => t.ticket_number) = List.range' 1 n) :
    lastTicketNumber db = n := by
  rw [lastTicketNumber, h, max?_getD_zero, foldl_max_range_one]

theorem iterateIssue_numbers (times : Nat → Nat) (n : Nat) :
    (iterateIssue times n).tickets.map (fun t => t.ticket_number) =
      List.range' 1 n := by
  induction n with
  | zero => rfl
  | succ m ih =>
      show ((create_ticket (iterateIssue times m) (times m)).1.tickets.map
        (fun t => t.ticket_number)) = _
      rw [create_ticket]
      simp only [List.map_append, List.map_cons, List.map_nil, ih,
        lastTicketNumber_of_range (iterateIssue times m) m ih,
        List.range'_1_concat]
      simp [Nat.add_comm]

/-- C2: starting from the empty table, N sequential `create_ticket` calls
produce rows whose `ticket_number` column reads exactly `[1, 2, ..., N]`
(so the set of numbers is `{1, ..., N}`, duplicate- and gap-free), and
each call computes its number as `MAX(ticket_number)` (0 on an empty
table) plus one. -/
theorem issue_numbers_one_to_n (times : Nat → Nat) (n : Nat)
    (db : DB) (now : Nat) :
    (iterateIssue times n).tickets.map (fun t => t.ticket_number) =
        List.range' 1 n ∧
    (create_ticket db now).2.ticket_number = lastTicketNumber db + 1 ∧
    lastTicketNumber emptyDB = 0 :=
  ⟨iterateIssue_numbers times n, rfl, rfl⟩

/-- C3: evaluation of `create_ticket` at a failing input.  On the empty
database, with the printer constructed successfully but `printer.print`
raising after `conn.commit()`, the row `(1, 1, now, FALSE)` is durably in
the table, yet the function returns `None` — the same creation-failure
signal as a store error — instead of the ticket payload.  (With the
print succeeding, the identical table state is paired with the payload;
a printer-construction failure aborts before any insert.) -/
theorem create_ticket_print_failure :
    create_ticket_run emptyDB 0 true false =
      (⟨2, [⟨1, 1, 0, false⟩]⟩, none) ∧
    create_ticket_run emptyDB 0 true true =
      (⟨2, [⟨1, 1, 0, false⟩]⟩, some ⟨1, 0, false⟩) ∧
    create_ticket_run emptyDB 0 false true = (emptyDB, none) :=
  ⟨rfl, rfl, rfl⟩

/-- C5: when no waiting ticket exists, `call_next_ticket` returns `None`
(the empty-queue result, not an error) and the table is returned
completely unchanged. -/
theorem call_next_empty_no_mutation (db : DB) (now1 now2 : Nat)
    (out : DB × Option CallPayload)
    (hw : waitingCount db = 0) (h : CallNextStep db now1 now2 out) :
    out = (db, none) := by
  cases h with
  | empty h0 => rfl
  | select t ht =>
      exfalso
      have hmem : t ∈ waitingTickets db :=
        of_decide_eq_true ((Bool.and_eq_true _ _).mp ht).1
      have hnil : waitingTickets db = [] := List.length_eq_zero.mp hw
      rw [hnil] at hmem
      exact absurd hmem (List.not_mem_nil t)

theorem call_next_empty_no_mutation_witness :
    ((⟨2, [⟨1, 1, 0, true⟩]⟩, none) : DB × Option CallPayload) =
      ((⟨2, [⟨1, 1, 0, true⟩]⟩ : DB), none) :=
  call_next_empty_no_mutation ⟨2, [⟨1, 1, 0, true⟩]⟩ 0 0 _ (by decide)
    (CallNextStep.empty (by decide))

/-- C10 counterexample: a connection-establishment failure is a store
failure, yet it is not converted to the empty-queue answer by any of
the three read-only functions: `conn = get_connection()` stands before
the `try` block, so the exception propagates to the caller — the result
is an escaping error, not the all-zero status, the empty list, or the
single-key null dict. -/
theorem read_ops_connect_failure_propagates :
    get_queue_status_run StoreOutcome.connectFail = Except.error () ∧
    get_queue_status_run StoreOutcome.connectFail ≠
      Except.ok ⟨0, 0, 0⟩ ∧
    get_ticket_history_run StoreOutcome.connectFail 10 = Except.error () ∧
    get_ticket_history_run StoreOutcome.connectFail 10 ≠ Except.ok [] ∧
    get_currently_called_run StoreOutcome.connectFail = Except.error () ∧
    get_currently_called_run StoreOutcome.connectFail ≠
      Except.ok [("currently_called", Val.vnull)] :=
  ⟨rfl, fun h => Except.noConfusion h, rfl, fun h => Except.noConfusion h,
   rfl, fun h => Except.noConfusion h⟩

/-- C10 amended: a store error raised inside the `try` block — after the
connection is established — is indistinguishable from a genuinely empty
queue on every read-only operation: `get_queue_status` answers the
all-zero status, `get_ticket_history` the empty list, and
`get_currently_called` the single-key null dict, exactly the answers
computed on the empty database.  A failure of `get_connection()` itself
is the exception: it occurs before the `try` block and propagates to
the caller in all three functions. -/
theorem read_ops_query_error_indistinguishable :
    get_queue_status_run StoreOutcome.queryFail =
      get_queue_status_run (StoreOutcome.ok emptyDB) ∧
    get_queue_status_run StoreOutcome.queryFail = Except.ok ⟨0, 0, 0⟩ ∧
    (∀ limit : Nat,
      get_ticket_history_run StoreOutcome.queryFail limit =
        get_ticket_history_run (StoreOutcome.ok emptyDB) limit) ∧
    get_ticket_history_run StoreOutcome.queryFail 10 = Except.ok [] ∧
    get_currently_called_run StoreOutcome.queryFail =
      get_currently_called_run (StoreOutcome.ok emptyDB) ∧
    get_currently_called_run StoreOutcome.queryFail =
      Except.ok [("currently_called", Val.vnull)] ∧
    get_queue_status_run StoreOutcome.connectFail = Except.error () ∧
    get_ticket_history_run StoreOutcome.connectFail 10 = Except.error () ∧
    get_currently_called_run StoreOutcome.connectFail = Except.error () := by
  refine ⟨rfl, rfl, fun limit => ?_, rfl, rfl, rfl, rfl, rfl, rfl⟩
  simp [get_ticket_history_run, get_ticket_history, attendedSorted]

theorem filter_not_attended_map_true (l : List Ticket) :
    (l.map (fun t =>
        (⟨t.id, t.ticket_number, t.timestamp, true⟩ : Ticket))).filter
      (fun t => !t.attended) = [] := by
  induction l with
  | nil => rfl
  | cons x xs ih => simp [List.filter, ih]

/-- C7 counterexample: on a table holding one (waiting) ticket, the
second `reset_queue` leaves the state unchanged, but its UPDATE carries
no WHERE clause, so it matches (touches) that one row rather than zero
rows. -/
theorem reset_twice_touches_rows :
    reset_queue (reset_queue (⟨2, [⟨1, 1, 0, false⟩]⟩ : DB)) =
        reset_queue (⟨2, [⟨1, 1, 0, false⟩]⟩ : DB) ∧
    resetRowsTouched (reset_queue (⟨2, [⟨1, 1, 0, false⟩]⟩ : DB)) = 1 ∧
    resetRowsTouched (reset_queue (⟨2, [⟨1, 1, 0, false⟩]⟩ : DB)) ≠ 0 :=
  ⟨by decide, by decide, by decide⟩

/-- C7 amended: `reset_queue` is idempotent at the state level — applying
it twice yields the same table as applying it once, and the waiting
count is 0 after each of the two calls — but the second call's UPDATE
(no WHERE clause) matches every row of the table, not zero rows; it
merely changes none of their values. -/
theorem reset_queue_idempotent (db : DB) :
    reset_queue (reset_queue db) = reset_queue db ∧
    waitingCount (reset_queue db) = 0 ∧
    waitingCount (reset_queue (reset_queue db)) = 0 ∧
    resetRowsTouched (reset_queue db) = totalIssued db := by
  have hcomp : ((fun t : Ticket =>
        (⟨t.id, t.ticket_number, t.timestamp, true⟩ : Ticket)) ∘
      (fun t : Ticket => ⟨t.id, t.ticket_number, t.timestamp, true⟩)) =
      (fun t : Ticket =>
        (⟨t.id, t.ticket_number, t.timestamp, true⟩ : Ticket)) :=
    funext fun t => rfl
  have hrr : reset_queue (reset_queue db) = reset_queue db := by
    simp [reset_queue, List.map_map, hcomp]
  refine ⟨hrr, ?_, ?_, ?_⟩
  · show (waitingTickets (reset_queue db)).length = 0
    rw [show waitingTickets (reset_queue db) = [] from
      filter_not_attended_map_true db.tickets]
    rfl
  · rw [hrr]
    show (waitingTickets (reset_queue db)).length = 0
    rw [show waitingTickets (reset_queue db) = [] from
      filter_not_attended_map_true db.tickets]
    rfl
  · simp [resetRowsTouched, reset_queue, totalIssued]

/-- C1 counterexample: with two waiting tickets carrying the identical
timestamp 5 — ids 1 and 2 — the query `ORDER BY timestamp ASC LIMIT 1`
(which has no id tiebreak) may fetch the ticket with id 2, and
`call_next_ticket` then attends and returns it, although the waiting
ticket with the smallest `(timestamp, id)` pair is the one with id 1. -/
theorem call_next_tie_not_id_ordered :
    canSelect (⟨3, [⟨1, 1, 5, false⟩, ⟨2, 2, 5, false⟩]⟩ : DB)
        ⟨2, 2, 5, false⟩ = true ∧
    CallNextStep (⟨3, [⟨1, 1, 5, false⟩, ⟨2, 2, 5, false⟩]⟩ : DB) 5 5
      (markAttended (⟨3, [⟨1, 1, 5, false⟩, ⟨2, 2, 5, false⟩]⟩ : DB) 2,
       some ⟨2, 5, (5 : Int) - ((5 : Nat) : Int)⟩) ∧
    isTsIdMin (⟨3, [⟨1, 1, 5, false⟩, ⟨2, 2, 5, false⟩]⟩ : DB)
        ⟨2, 2, 5, false⟩ = false ∧
    isTsIdMin (⟨3, [⟨1, 1, 5, false⟩, ⟨2, 2, 5, false⟩]⟩ : DB)
        ⟨1, 1, 5, false⟩ = true := by
  refine ⟨by decide, ?_, by decide, by decide⟩
  exact CallNextStep.select ⟨2, 2, 5, false⟩ (by decide)

/-- C1 amended: every successful `call_next_ticket` selects a waiting
ticket whose timestamp is minimal among the waiting tickets, marks
exactly that row attended, and returns its data; when the waiting
tickets' timestamps are pairwise distinct this ticket is the unique
`(timestamp, id)`-minimum, but on a timestamp tie the id tiebreak is not
guaranteed (the query orders by timestamp only). -/
theorem call_next_selects_min_timestamp (db : DB) (now1 now2 : Nat)
    (out : DB × Option CallPayload) (h : CallNextStep db now1 now2 out)
    (hs : out.2 ≠ none) :
    ∃ t : Ticket, canSelect db t = true ∧ t ∈ waitingTickets db ∧
      (∀ u ∈ waitingTickets db, t.timestamp ≤ u.timestamp) ∧
      out = (markAttended db t.id,
             some ⟨t.ticket_number, now1, (now2 : Int) - (t.timestamp : Int)⟩) ∧
      (((waitingTickets db).map (fun u => u.timestamp)).Nodup →
        isTsIdMin db t = true) := by
  cases h with
  | empty h0 => exact absurd rfl hs
  | select t ht =>
      have hparts := (Bool.and_eq_true _ _).mp ht
      have hmem : t ∈ waitingTickets db := of_decide_eq_true hparts.1
      have hle : ∀ u ∈ waitingTickets db, t.timestamp ≤ u.timestamp := by
        intro u hu
        exact of_decide_eq_true (List.all_eq_true.mp hparts.2 u hu)
      refine ⟨t, ht, hmem, hle, rfl, ?_⟩
      intro hnd
      rw [isTsIdMin, Bool.and_eq_true]
      refine ⟨decide_eq_true hmem, List.all_eq_true.mpr ?_⟩
      intro u hu
      by_cases hut : u = t
      · simp [hut]
      · have h1 : t.timestamp ≤ u.timestamp := hle u hu
        have h2 : t.timestamp ≠ u.timestamp := by
          intro he
          exact hut (List.inj_on_of_nodup_map hnd hu hmem he.symm)
        have h3 : t.timestamp < u.timestamp := Nat.lt_of_le_of_ne h1 h2
        simp [h3]

theorem call_next_selects_min_timestamp_witness :
    ∃ t : Ticket,
      canSelect (⟨2, [⟨1, 1, 0, false⟩]⟩ : DB) t = true ∧
      t ∈ waitingTickets (⟨2, [⟨1, 1, 0, false⟩]⟩ : DB) ∧
      (∀ u ∈ waitingTickets (⟨2, [⟨1, 1, 0, false⟩]⟩ : DB),
        t.timestamp ≤ u.timestamp) ∧
      (markAttended (⟨2, [⟨1, 1, 0, false⟩]⟩ : DB) 1,
        some (⟨1, 5, (7 : Int) - ((0 : Nat) : Int)⟩ : CallPayload)) =
        (markAttended (⟨2, [⟨1, 1, 0, false⟩]⟩ : DB) t.id,
         some ⟨t.ticket_number, 5, (7 : Int) - (t.timestamp : Int)⟩) ∧
      (((waitingTickets (⟨2, [⟨1, 1, 0, false⟩]⟩ : DB)).map
          (fun u => u.timestamp)).Nodup →
        isTsIdMin (⟨2, [⟨1, 1, 0, false⟩]⟩ : DB) t = true) :=
  call_next_selects_min_timestamp ⟨2, [⟨1, 1, 0, false⟩]⟩ 5 7 _
    (CallNextStep.select ⟨1, 1, 0, false⟩ (by decide)) (by decide)

/-- C4 counterexample: a successful `call_next_ticket` on a ticket issued
at time 0, called at time 5, carries `called_time = 5` — a fresh
`datetime.now()` reading — not the ticket's original issuance timestamp 0
that the claim says is returned as `called_time`. -/
theorem call_next_called_time_not_issuance :
    CallNextStep (⟨2, [⟨1, 1, 0, false⟩]⟩ : DB) 5 5
      (markAttended (⟨2, [⟨1, 1, 0, false⟩]⟩ : DB) 1,
       some ⟨1, 5, (5 : Int) - ((0 : Nat) : Int)⟩) ∧
    (⟨1, 5, (5 : Int) - ((0 : Nat) : Int)⟩ : CallPayload).called_time = 5 ∧
    (⟨1, 1, 0, false⟩ : Ticket).timestamp = 0 ∧ (5 : Nat) ≠ 0 := by
  refine ⟨CallNextStep.select ⟨1, 1, 0, false⟩ (by decide), rfl, rfl, by decide⟩

/-- C4 amended: a successful `call_next_ticket` that fetches the waiting
ticket `t` returns `called_ticket = t.ticket_number`, `called_time`
equal to the call-time clock reading (not the issuance timestamp), and
`wait_time_seconds` equal to the second clock reading minus the
issuance timestamp; the wait time is non-negative whenever the clock has
not gone backwards since issuance. -/
theorem call_next_payload_fields (db : DB) (now1 now2 : Nat) (t : Ticket)
    (ht : canSelect db t = true) (hc : t.timestamp ≤ now2) :
    CallNextStep db now1 now2
      (markAttended db t.id,
       some ⟨t.ticket_number, now1, (now2 : Int) - (t.timestamp : Int)⟩) ∧
    0 ≤ (now2 : Int) - (t.timestamp : Int) := by
  refine ⟨CallNextStep.select t ht, ?_⟩
  have hcast : (t.timestamp : Int) ≤ (now2 : Int) := Int.ofNat_le.mpr hc
  omega

theorem call_next_payload_fields_witness :
    CallNextStep (⟨2, [⟨1, 1, 3, false⟩]⟩ : DB) 5 7
      (markAttended (⟨2, [⟨1, 1, 3, false⟩]⟩ : DB)
        (⟨1, 1, 3, false⟩ : Ticket).id,
       some ⟨(⟨1, 1, 3, false⟩ : Ticket).ticket_number, 5,
             (7 : Int) - ((⟨1, 1, 3, false⟩ : Ticket).timestamp : Int)⟩) ∧
    0 ≤ (7 : Int) - ((⟨1, 1, 3, false⟩ : Ticket).timestamp : Int) :=
  call_next_payload_fields ⟨2, [⟨1, 1, 3, false⟩]⟩ 5 7 ⟨1, 1, 3, false⟩
    (by decide) (by decide)

theorem create_ticket_run_tickets (db : DB) (now : Nat) (a b : Bool) :
    (create_ticket_run db now a b).1.tickets = db.tickets ∨
    (create_ticket_run db now a b).1.tickets =
      db.tickets ++ [⟨db.seq, lastTicketNumber db + 1, now, false⟩] := by
  cases a <;> cases b <;> simp [create_ticket_run, create_ticket]

theorem mem_markAttended (db : DB) (i : Nat) (t : Ticket)
    (hmem : t ∈ db.tickets) (hatt : t.attended = true) :
    ∃ t' ∈ (markAttended db i).tickets, t'.id = t.id ∧
      t'.ticket_number = t.ticket_number ∧ t'.timestamp = t.timestamp ∧
      t'.attended = true := by
  refine ⟨(fun x : Ticket =>
      if x.id = i then ⟨x.id, x.ticket_number, x.timestamp, true⟩ else x) t,
    List.mem_map_of_mem _ hmem, ?_⟩
  by_cases h : t.id = i <;> simp [h, hatt]

/-- C6: (1) every mutating operation carries an attended row to a row
with the same id, number and timestamp that is still attended — the
`attended` flag is never flipped back; (2) the row fetched by a
successful `call_next_ticket` is always a waiting row, so an attended
row is never returned again; (3) every attended row appears in
`get_ticket_history` once the limit covers the attended count. -/
theorem attended_is_final :
    (∀ db db' : DB, Step db db' → ∀ t : Ticket,
       t ∈ db.tickets → t.attended = true →
       ∃ t' ∈ db'.tickets, t'.id = t.id ∧
         t'.ticket_number = t.ticket_number ∧ t'.timestamp = t.timestamp ∧
         t'.attended = true) ∧
    (∀ (db : DB) (t : Ticket), canSelect db t = true → t.attended = false) ∧
    (∀ (db : DB) (t : Ticket) (limit : Nat), t ∈ db.tickets →
       t.attended = true → attendedCount db ≤ limit →
       histEntry t ∈ get_ticket_history db limit) := by
  refine ⟨?_, ?_, ?_⟩
  · intro db db' hstep t hmem hatt
    cases hstep with
    | issue now initOk printOk =>
        rcases create_ticket_run_tickets db now initOk printOk with hE | hE
        · exact ⟨t, by rw [hE]; exact hmem, rfl, rfl, rfl, hatt⟩
        · exact ⟨t, by rw [hE]; exact List.mem_append_left _ hmem,
            rfl, rfl, rfl, hatt⟩
    | callNext now1 now2 out hcn =>
        cases hcn with
        | empty h0 => exact ⟨t, hmem, rfl, rfl, rfl, hatt⟩
        | select u hu => exact mem_markAttended db u.id t hmem hatt
    | reset =>
        exact ⟨⟨t.id, t.ticket_number, t.timestamp, true⟩,
          List.mem_map_of_mem _ hmem, rfl, rfl, rfl, rfl⟩
  · intro db t h
    have hmem : t ∈ waitingTickets db :=
      of_decide_eq_true ((Bool.and_eq_true _ _).mp h).1
    have hf := (List.mem_filter.mp hmem).2
    simpa using hf
  · intro db t limit hmem hatt hlim
    have h1 : t ∈ db.tickets.filter (fun u => u.attended) :=
      List.mem_filter.mpr ⟨hmem, hatt⟩
    have h2 : t ∈ attendedSorted db :=
      (List.perm_insertionSort idGe _).mem_iff.mpr h1
    have hlen : (attendedSorted db).length = attendedCount db := by
      rw [attendedSorted, List.length_insertionSort]; rfl
    have htake : (attendedSorted db).take limit = attendedSorted db :=
      List.take_of_length_le (by rw [hlen]; exact hlim)
    rw [get_ticket_history, htake]
    exact List.mem_map_of_mem _ h2

theorem attended_is_final_witness :
    (∃ t' ∈ (reset_queue (⟨2, [⟨1, 1, 0, true⟩]⟩ : DB)).tickets,
       t'.id = (⟨1, 1, 0, true⟩ : Ticket).id ∧
       t'.ticket_number = (⟨1, 1, 0, true⟩ : Ticket).ticket_number ∧
       t'.timestamp = (⟨1, 1, 0, true⟩ : Ticket).timestamp ∧
       t'.attended = true) ∧
    histEntry ⟨1, 1, 0, true⟩ ∈
      get_ticket_history (⟨2, [⟨1, 1, 0, true⟩]⟩ : DB) 10 :=
  ⟨attended_is_final.1 ⟨2, [⟨1, 1, 0, true⟩]⟩ _
      (Step.reset ⟨2, [⟨1, 1, 0, true⟩]⟩) ⟨1, 1, 0, true⟩ (by decide) rfl,
   attended_is_final.2.2 ⟨2, [⟨1, 1, 0, true⟩]⟩ ⟨1, 1, 0, true⟩ 10
      (by decide) rfl (by decide)⟩

theorem filter_attended_map_true (l : List Ticket) :
    (l.map (fun t =>
        (⟨t.id, t.ticket_number, t.timestamp, true⟩ : Ticket))).filter
      (fun t => t.attended) =
      l.map (fun t => (⟨t.id, t.ticket_number, t.timestamp, true⟩ : Ticket)) := by
  induction l with
  | nil => rfl
  | cons x xs ih => simp [List.filter, ih]

/-- C8: `reset_queue` deletes no row and touches no field but `attended`:
the `(id, ticket_number, timestamp)` columns are unchanged row for row,
`total_issued` is unchanged, and every entry of the pre-reset ticket
history is still present in the post-reset history (with a limit covering
the table). -/
theorem reset_preserves_history (db : DB) :
    (reset_queue db).tickets.map (fun t => (t.id, t.ticket_number, t.timestamp)) =
      db.tickets.map (fun t => (t.id, t.ticket_number, t.timestamp)) ∧
    totalIssued (reset_queue db) = totalIssued db ∧
    (∀ (limit : Nat) (e : Nat × Nat), e ∈ get_ticket_history db limit →
      e ∈ get_ticket_history (reset_queue db) (totalIssued db)) := by
  refine ⟨?_, ?_, ?_⟩
  · have hfg : ((fun t : Ticket => (t.id, t.ticket_number, t.timestamp)) ∘
        (fun t : Ticket => (⟨t.id, t.ticket_number, t.timestamp, true⟩ : Ticket))) =
        (fun t : Ticket => (t.id, t.ticket_number, t.timestamp)) :=
      funext fun t => rfl
    show ((db.tickets.map _).map _) = _
    rw [List.map_map, hfg]
  · simp [totalIssued, reset_queue]
  · intro limit e he
    rw [get_ticket_history] at he
    obtain ⟨t, ht, rfl⟩ := List.mem_map.mp he
    have ht2 : t ∈ attendedSorted db := List.take_subset limit _ ht
    have ht3 : t ∈ db.tickets.filter (fun u => u.attended) :=
      (List.perm_insertionSort idGe _).mem_iff.mp ht2
    have ht4 := List.mem_filter.mp ht3
    have hmem2 : (⟨t.id, t.ticket_number, t.timestamp, true⟩ : Ticket) ∈
        (reset_queue db).tickets.filter (fun u => u.attended) := by
      show _ ∈ (db.tickets.map _).filter _
      rw [filter_attended_map_true]
      exact List.mem_map_of_mem _ ht4.1
    have hmem3 : (⟨t.id, t.ticket_number, t.timestamp, true⟩ : Ticket) ∈
        attendedSorted (reset_queue db) :=
      (List.perm_insertionSort idGe _).mem_iff.mpr hmem2
    have hlen : (attendedSorted (reset_queue db)).length = totalIssued db := by
      rw [attendedSorted, List.length_insertionSort]
      show ((db.tickets.map _).filter _).length = _
      rw [filter_attended_map_true, List.length_map]
      rfl
    have htake : (attendedSorted (reset_queue db)).take (totalIssued db) =
        attendedSorted (reset_queue db) :=
      List.take_of_length_le (Nat.le_of_eq hlen)
    rw [get_ticket_history, htake]
    have hent : histEntry (⟨t.id, t.ticket_number, t.timestamp, true⟩ : Ticket) =
        histEntry t := rfl
    rw [← hent]
    exact List.mem_map_of_mem _ hmem3

theorem reset_preserves_history_witness :
    histEntry ⟨1, 1, 0, true⟩ ∈
      get_ticket_history
        (reset_queue (⟨3, [⟨1, 1, 0, true⟩, ⟨2, 2, 1, false⟩]⟩ : DB))
        (totalIssued (⟨3, [⟨1, 1, 0, true⟩, ⟨2, 2, 1, false⟩]⟩ : DB)) :=
  (reset_preserves_history ⟨3, [⟨1, 1, 0, true⟩, ⟨2, 2, 1, false⟩]⟩).2.2 1
    (histEntry ⟨1, 1, 0, true⟩) (by decide)

/-- C9 counterexample: on a database where no ticket was ever attended,
the dict returned by `get_currently_called` is exactly the single-key
`currently_called: None` — there is no `called_at` key at all, while the
claim asserts a payload with `called_at` null. -/
theorem currently_called_empty_no_called_at :
    get_currently_called emptyDB = [("currently_called", Val.vnull)] ∧
    List.lookup "called_at" (get_currently_called emptyDB) = none :=
  ⟨rfl, rfl⟩

/-- C9 amended: `get_currently_called` reports the attended ticket with
the largest id — its `ticket_number` under `currently_called` and its
issuance timestamp under `called_at` — and when no ticket has ever been
attended it returns the dict containing only `currently_called: None`,
with no `called_at` key. -/
theorem currently_called_most_recent (db : DB) :
    (db.tickets.filter (fun u => u.attended) = [] →
      get_currently_called db = [("currently_called", Val.vnull)]) ∧
    (∀ t : Ticket, t ∈ db.tickets → t.attended = true →
      (∀ u : Ticket, u ∈ db.tickets → u.attended = true → u ≠ t → u.id < t.id) →
      get_currently_called db =
        [("currently_called", Val.vnat t.ticket_number),
         ("called_at", Val.vts t.timestamp)]) := by
  constructor
  · intro h
    simp [get_currently_called, attendedSorted, h, List.insertionSort]
  · intro t hmem hatt hmax
    have h1 : t ∈ db.tickets.filter (fun u => u.attended) :=
      List.mem_filter.mpr ⟨hmem, hatt⟩
    have h2 : t ∈ attendedSorted db :=
      (List.perm_insertionSort idGe _).mem_iff.mpr h1
    have hsort : List.Sorted idGe (attendedSorted db) :=
      List.sorted_insertionSort idGe _
    cases hs : attendedSorted db with
    | nil => rw [hs] at h2; exact absurd h2 (List.not_mem_nil t)
    | cons b tl =>
        have hb : b ∈ attendedSorted db := by
          rw [hs]; exact List.mem_cons_self b tl
        have hbf : b ∈ db.tickets.filter (fun u => u.attended) :=
          (List.perm_insertionSort idGe _).mem_iff.mp hb
        have hbp := List.mem_filter.mp hbf
        have hbt : b = t := by
          by_contra hne
          have hlt : b.id < t.id := hmax b hbp.1 hbp.2 hne
          rw [hs] at h2
          cases List.mem_cons.mp h2 with
          | inl h => exact hne h.symm
          | inr h =>
              rw [hs] at hsort
              have hge : idGe b t := List.rel_of_sorted_cons hsort t h
              exact absurd hlt (Nat.not_lt.mpr hge)
        have hgc : get_currently_called db =
            [("currently_called", Val.vnat b.ticket_number),
             ("called_at", Val.vts b.timestamp)] := by
          rw [get_currently_called, hs]
          rfl
        rw [hgc, hbt]

theorem currently_called_most_recent_witness :
    get_currently_called (⟨3, [⟨1, 1, 0, true⟩, ⟨2, 2, 1, true⟩]⟩ : DB) =
      [("currently_called",
        Val.vnat (⟨2, 2, 1, true⟩ : Ticket).ticket_number),
       ("called_at", Val.vts (⟨2, 2, 1, true⟩ : Ticket).timestamp)] :=
  (currently_called_most_recent ⟨3, [⟨1, 1, 0, true⟩, ⟨2, 2, 1, true⟩]⟩).2
    ⟨2, 2, 1, true⟩ (by decide) rfl (by decide)
